import Mathlib

/-!
Shallow embedding of the orchestration core of `gpt153/project-manager`
(`src/agent/orchestrator_agent.py`), together with models of the storage
and enum modules it imports (`src/agent/tools.py`, `src/database/models.py`),
which are declared only through their call sites and the spec.

Conventions of the embedding:
- the async database session is modelled as an explicit `DB` state threaded
  through every operation;
- Python exceptions are modelled as `Except Err`: a tool body that can raise
  returns `Except.error`, a tool body that always returns a value returns
  `Except.ok`;
- timestamps are a `Nat` clock held in `DB`, bumped on every ledger append;
- Python dictionaries returned to the reasoning collaborator are modelled as
  association lists over `PyValue`.
-/

/-- Modelled from the spec (§3) and the source import of
`src.database.models.MessageRole` (module absent from the repository):
closed role set {USER, ASSISTANT, SYSTEM}. -/
inductive MessageRole where
  | USER
  | ASSISTANT
  | SYSTEM
deriving DecidableEq, Repr

/-- Python `Enum` member name, as used by the subscript lookup
`MessageRole[...]`. -/
def MessageRole.name : MessageRole → String
  | .USER => "USER"
  | .ASSISTANT => "ASSISTANT"
  | .SYSTEM => "SYSTEM"

/-- Python `Enum` `.value` of a role, used by `get_conversation`'s
projection. Modelled from the spec: the concrete representation is not
observable in the source; the lowercase canonical names are used. -/
def MessageRole.value : MessageRole → String
  | .USER => "user"
  | .ASSISTANT => "assistant"
  | .SYSTEM => "system"

/-- Python subscript lookup `MessageRole[s]`: finds the member whose name is
exactly `s`, else the lookup raises `KeyError` (here: `none`). -/
def MessageRole.lookup (s : String) : Option MessageRole :=
  if s = "USER" then some .USER
  else if s = "ASSISTANT" then some .ASSISTANT
  else if s = "SYSTEM" then some .SYSTEM
  else none

/-- Modelled from the spec (§3) and the source import of
`src.database.models.ProjectStatus` (module absent from the repository):
closed set of lifecycle phases. Only the two members evidenced by the spec
and the source docstring (`BRAINSTORMING, VISION_REVIEW, etc.`) are
included; every theorem quantifying over `ProjectStatus` covers the whole
closed set of the model. -/
inductive ProjectStatus where
  | BRAINSTORMING
  | VISION_REVIEW
deriving DecidableEq, Repr

/-- Python `Enum` member name, as used by the subscript lookup
`ProjectStatus[...]`. -/
def ProjectStatus.name : ProjectStatus → String
  | .BRAINSTORMING => "BRAINSTORMING"
  | .VISION_REVIEW => "VISION_REVIEW"

/-- Python `Enum` `.value` of a status, used by `get_project_context`'s
projection. Modelled from the spec: concrete representation not observable;
lowercase canonical names are used. -/
def ProjectStatus.value : ProjectStatus → String
  | .BRAINSTORMING => "brainstorming"
  | .VISION_REVIEW => "vision_review"

/-- Python subscript lookup `ProjectStatus[s]`: member whose name is exactly
`s`, else `KeyError` (here: `none`). -/
def ProjectStatus.lookup (s : String) : Option ProjectStatus :=
  if s = "BRAINSTORMING" then some .BRAINSTORMING
  else if s = "VISION_REVIEW" then some .VISION_REVIEW
  else none

/-- A vision document: nested key/value data (spec §3), modelled as a flat
association list — its internal structure is never inspected by this core. -/
abbrev VisionDoc := List (String × String)

/-- Project record (spec §3 plus the `name`/`description` fields read by
`get_project_context` in the source). -/
structure Project where
  id : Nat
  name : String
  description : Option String
  status : ProjectStatus
  vision_document : Option VisionDoc
  github_repo_url : Option String
  telegram_chat_id : Option String
  created_at : Nat
  updated_at : Nat
deriving DecidableEq, Repr

/-- Ledger message (spec §3). -/
structure Message where
  project_id : Nat
  role : MessageRole
  content : String
  timestamp : Nat
deriving DecidableEq, Repr

/-- Durable storage state: project table, append-only message ledger (in
insertion order), and a clock supplying timestamps. -/
structure DB where
  projects : List Project
  messages : List Message
  clock : Nat
deriving DecidableEq, Repr

/-- Errors of the embedding: Python exceptions crossing a function
boundary. `KeyError` carries the failed lookup key; `NotFound` and
`InvalidArgument` are the storage-layer errors of spec §7; `Upstream` is a
fatal reasoning-collaborator failure (spec `UpstreamTransient` after the
retry budget is exhausted). -/
inductive Err where
  | NotFound
  | InvalidArgument
  | KeyError (key : String)
  | Upstream
deriving DecidableEq, Repr

/-- Modelled from the spec (§4.2 `get`) and the call sites in
`orchestrator_agent.py` (`if not project:` shows the absent case is a falsy
return, not a raise): look a project up by id. -/
def get_project (db : DB) (pid : Nat) : Option Project :=
  db.projects.find? (fun p => p.id = pid)

/-- Modelled from the spec (§4.1 `append`): fails with `NotFound` if the
project does not exist; otherwise appends a message stamped with the
current clock and advances the clock, so timestamps are monotone within
the ledger. Imported by the source from the absent `src.agent.tools`. -/
def save_conversation_message (db : DB) (pid : Nat) (role : MessageRole)
    (content : String) : Except Err DB :=
  match get_project db pid with
  | none => .error .NotFound
  | some _ => .ok { db with
      messages := db.messages ++ [⟨pid, role, content, db.clock⟩],
      clock := db.clock + 1 }

/-- Modelled from the spec (§4.2 `setStatus`, enum argument already parsed):
fails with `NotFound` if the project is absent; otherwise updates `status`
and refreshes `updated_at`. Imported by the source from the absent
`src.agent.tools`. -/
def update_project_status (db : DB) (pid : Nat) (st : ProjectStatus) :
    Except Err DB :=
  match get_project db pid with
  | none => .error .NotFound
  | some _ => .ok { db with projects := db.projects.map (fun p =>
      if p.id = pid then { p with status := st, updated_at := db.clock }
      else p) }

/-- Modelled from the spec (§4.2 `setVisionDocument`): wholesale replace,
`NotFound` if the project is absent, `updated_at` refreshed. Imported by
the source from the absent `src.agent.tools`. -/
def update_project_vision (db : DB) (pid : Nat) (doc : VisionDoc) :
    Except Err DB :=
  match get_project db pid with
  | none => .error .NotFound
  | some _ => .ok { db with projects := db.projects.map (fun p =>
      if p.id = pid then
        { p with vision_document := some doc, updated_at := db.clock }
      else p) }

/-- Modelled from the spec (§4.1 `recent`): up to `limit` most recent
messages of the project in ascending timestamp order; `NotFound` for an
absent project, `InvalidArgument` for a non-positive limit. Imported by the
source from the absent `src.agent.tools`. -/
def get_conversation_history (db : DB) (pid : Nat) (limit : Int) :
    Except Err (List Message) :=
  match get_project db pid with
  | none => .error .NotFound
  | some _ =>
    if limit ≤ 0 then .error .InvalidArgument
    else
      let own := db.messages.filter (fun m => m.project_id = pid)
      .ok (own.drop (own.length - limit.toNat))

/-- Python `str.upper()`, as applied to the `role`/`new_status` arguments:
uppercases character by character (all enum names are ASCII, so the ASCII
case map of `Char.toUpper` is the exact behaviour). -/
def pyUpper (s : String) : String :=
  ⟨s.data.map Char.toUpper⟩

/-- A Python value appearing in a dict returned by a tool. -/
inductive PyValue where
  | str (s : String)
  | bool (b : Bool)
  | none
deriving DecidableEq, Repr

/-- Lift an optional string field into a `PyValue` (Python passes the field
through, `None` included). -/
def PyValue.ofOptStr : Option String → PyValue
  | Option.none => .none
  | Option.some s => .str s

/-! ## The tools of `orchestrator_agent.py`

Each tool takes the explicit `DB` state and the turn's
`AgentDependencies.project_id` binding (`Option Nat`, `None` when no
project is bound). A tool whose Python body can raise returns
`Except.error` on that path. -/

/-- `save_message` (orchestrator_agent.py lines 38–63). Note: the role
lookup `MessageRole[role.upper()]` is NOT wrapped in try/except in the
source, so an unknown role raises `KeyError`. -/
def save_message (db : DB) (project_id : Option Nat) (role content : String) :
    Except Err (DB × String) :=
  match project_id with
  | none => .ok (db, "Error: No active project")
  | some pid =>
    match MessageRole.lookup (pyUpper role) with
    | none => .error (.KeyError (pyUpper role))
    | some role_enum =>
      match save_conversation_message db pid role_enum content with
      | .error e => .error e
      | .ok db2 => .ok (db2, "Message saved as " ++ role)

/-- `get_project_context` (orchestrator_agent.py lines 66–95). -/
def get_project_context (db : DB) (project_id : Option Nat) :
    Except Err (DB × List (String × PyValue)) :=
  match project_id with
  | none => .ok (db, [("error", .str "No active project")])
  | some pid =>
    match get_project db pid with
    | none => .ok (db, [("error", .str "Project not found")])
    | some project => .ok (db,
        [("id", .str (toString project.id)),
         ("name", .str project.name),
         ("description", .ofOptStr project.description),
         ("status", .str project.status.value),
         ("github_repo_url", .ofOptStr project.github_repo_url),
         ("telegram_chat_id", .ofOptStr project.telegram_chat_id),
         ("has_vision_document", .bool project.vision_document.isSome),
         ("created_at", .str (toString project.created_at)),
         ("updated_at", .str (toString project.updated_at))])

/-- `get_conversation` (orchestrator_agent.py lines 98–122); `limit`
defaults to 20 at the call boundary. A storage error from
`get_conversation_history` is not caught and propagates. -/
def get_conversation (db : DB) (project_id : Option Nat) (limit : Int) :
    Except Err (DB × List (List (String × PyValue))) :=
  match project_id with
  | none => .ok (db, [[("error", .str "No active project")]])
  | some pid =>
    match get_conversation_history db pid limit with
    | .error e => .error e
    | .ok msgs => .ok (db, msgs.map (fun m =>
        [("role", .str m.role.value),
         ("content", .str m.content),
         ("timestamp", .str (toString m.timestamp))]))

/-- `update_status` (orchestrator_agent.py lines 125–145). The try/except
catches exactly `KeyError` from the enum lookup; a status outside the
closed enum therefore yields the rejection string. A `NotFound` raised by
`update_project_status` is NOT a `KeyError` and would propagate. -/
def update_status (db : DB) (project_id : Option Nat) (new_status : String) :
    Except Err (DB × String) :=
  match project_id with
  | none => .ok (db, "Error: No active project")
  | some pid =>
    match ProjectStatus.lookup (pyUpper new_status) with
    | none => .ok (db, "Error: Invalid status \'" ++ new_status ++ "\'")
    | some status_enum =>
      match update_project_status db pid status_enum with
      | .error e => .error e
      | .ok db2 => .ok (db2, "Project status updated to " ++ new_status)

/-- `save_vision_document` (orchestrator_agent.py lines 148–167). -/
def save_vision_document (db : DB) (project_id : Option Nat)
    (vision_doc : VisionDoc) : Except Err (DB × String) :=
  match project_id with
  | none => .ok (db, "Error: No active project")
  | some pid =>
    match update_project_vision db pid vision_doc with
    | .error e => .error e
    | .ok db2 => .ok (db2, "Vision document saved successfully")

/-! ## Orchestration loop (`run_orchestrator`, lines 171–200)

The reasoning collaborator is an opaque external process (spec §6). Per
spec §9 its tool-calling loop is modelled explicitly: a turn script lists
the tool calls it issues, in order, and how it finishes (a final reply, or
a fatal upstream failure after the retry budget). Each tool call is
dispatched synchronously against the current state; an exception escaping
a tool aborts the agent run. State mutated before a failure is not rolled
back, so results carry the state reached at the point of failure. -/

/-- A tool invocation the reasoning collaborator may request (the fixed
registry of `orchestrator_agent.py`). -/
inductive ToolCall where
  | saveMessage (role content : String)
  | getProjectContext
  | getConversation (limit : Int)
  | updateStatus (new_status : String)
  | saveVisionDocument (doc : VisionDoc)
deriving DecidableEq, Repr

/-- Whether a tool call is a `saveMessage` request (the only tool that can
append to the ledger). -/
def ToolCall.isSaveMessage : ToolCall → Bool
  | .saveMessage _ _ => true
  | _ => false

/-- Value a tool hands back to the reasoning collaborator. -/
inductive ToolResult where
  | str (s : String)
  | dict (d : List (String × PyValue))
  | list (l : List (List (String × PyValue)))
deriving DecidableEq, Repr

/-- Dispatch one requested tool call against the current state under the
turn's project binding. An `Except.error` is a Python exception escaping
the tool (every error path of the tools leaves the state unmutated, so the
pre-call state is the state at the raise). -/
def dispatch_tool (db : DB) (project_id : Option Nat) :
    ToolCall → Except Err (DB × ToolResult)
  | .saveMessage role content =>
    (save_message db project_id role content).map (fun r => (r.1, .str r.2))
  | .getProjectContext =>
    (get_project_context db project_id).map (fun r => (r.1, .dict r.2))
  | .getConversation limit =>
    (get_conversation db project_id limit).map (fun r => (r.1, .list r.2))
  | .updateStatus s =>
    (update_status db project_id s).map (fun r => (r.1, .str r.2))
  | .saveVisionDocument doc =>
    (save_vision_document db project_id doc).map (fun r => (r.1, .str r.2))

/-- How the collaborator finishes the turn after its tool calls: a final
reply text, or a fatal failure of the upstream invocation (spec §4.4 step 3
after the retry budget is exhausted). -/
inductive CollabOutcome where
  | reply (text : String)
  | fatal
deriving DecidableEq, Repr

/-- One turn's behaviour of the opaque reasoning collaborator: the tool
calls it issues, in order, then its outcome. -/
structure CollabScript where
  calls : List ToolCall
  outcome : CollabOutcome
deriving DecidableEq, Repr

/-- Execute the collaborator's tool calls strictly sequentially (spec §5).
Returns the state reached and the exception that aborted the run, if any;
calls after a raising call are not executed. -/
def run_calls (db : DB) (project_id : Option Nat) :
    List ToolCall → DB × Option Err
  | [] => (db, none)
  | c :: cs =>
    match dispatch_tool db project_id c with
    | .error e => (db, some e)
    | .ok (db2, _) => run_calls db2 project_id cs

/-- `orchestrator_agent.run(user_message, deps)`: the collaborator issues
its tool calls against the bound context, then produces its final reply or
fails fatally. The state component is the state when the run ends, kept
also on failure (no rollback). -/
def run_agent (db : DB) (project_id : Option Nat) (script : CollabScript) :
    DB × Except Err String :=
  match run_calls db project_id script.calls with
  | (db2, some e) => (db2, .error e)
  | (db2, none) =>
    match script.outcome with
    | .reply text => (db2, .ok text)
    | .fatal => (db2, .error .Upstream)

/-- `run_orchestrator` (lines 171–200): append the user message, run the
agent with the project bound in its dependencies, append the reply,
return it. Any exception aborts the turn at that point; state already
persisted stays (the session is not rolled back). -/
def run_orchestrator (db : DB) (project_id : Nat) (user_message : String)
    (script : CollabScript) : DB × Except Err String :=
  match save_conversation_message db project_id .USER user_message with
  | .error e => (db, .error e)
  | .ok db1 =>
    match run_agent db1 (some project_id) script with
    | (db2, .error e) => (db2, .error e)
    | (db2, .ok reply) =>
      match save_conversation_message db2 project_id .ASSISTANT reply with
      | .error e => (db2, .error e)
      | .ok db3 => (db3, .ok reply)

/-! ## Concrete fixtures for witnesses and counterexamples -/

/-- A concrete existing project in the initial phase. -/
def exampleProject : Project :=
  { id := 1
    name := "demo"
    description := some "a demo project"
    status := .BRAINSTORMING
    vision_document := none
    github_repo_url := none
    telegram_chat_id := some "chat-42"
    created_at := 0
    updated_at := 0 }

/-- A concrete storage state holding `exampleProject`, an empty ledger and
clock 10. -/
def exampleDB : DB :=
  { projects := [exampleProject], messages := [], clock := 10 }

/-- `exampleDB` right after appending the USER message "hi" for project 1
(the state reached by step 1 of a turn). -/
def exampleDB1 : DB :=
  { exampleDB with
      messages := [⟨1, MessageRole.USER, "hi", 10⟩], clock := 11 }

/-- Written from the spec, for comparison with the snapshot the code
builds (refinement check of C8): the Project fields listed in §3 of the
spec, under the key naming the source snapshot uses (`visionDocument`
appears as the presence flag `has_vision_document`, `externalRepoUrl` as
`github_repo_url`, `externalChatHandle` as `telegram_chat_id`,
`createdAt`/`updatedAt` as `created_at`/`updated_at`). §3 lists no name
or description field. -/
def specSection3FieldKeys : List String :=
  ["id", "status", "has_vision_document", "github_repo_url",
   "telegram_chat_id", "created_at", "updated_at"]

/-- The keys of the snapshot dict `get_project_context` actually builds,
in source order (orchestrator_agent.py lines 85–95). -/
def snapshotKeys : List String :=
  ["id", "name", "description", "status", "github_repo_url",
   "telegram_chat_id", "has_vision_document", "created_at", "updated_at"]

/-! ## Helper lemmas -/

/-- The Python subscript lookup finds each status member by its exact
name. -/
theorem ProjectStatus.lookup_name (st : ProjectStatus) :
    ProjectStatus.lookup st.name = some st := by
  cases st <;> rfl

/-- `find?` by id over a list updated pointwise at `pid` by an
id-preserving function: the found record is the updated one. -/
theorem find_map_ite (pid : Nat) (f : Project → Project)
    (hid : ∀ p, (f p).id = p.id) (l : List Project) (proj : Project)
    (h : l.find? (fun p => p.id = pid) = some proj) :
    (l.map (fun p => if p.id = pid then f p else p)).find?
      (fun p => p.id = pid) = some (f proj) := by
  induction l with
  | nil => simp at h
  | cons a t ih =>
    by_cases ha : a.id = pid
    · rw [List.find?_cons_of_pos _ (by simpa using ha)] at h
      injection h with h2
      subst h2
      simp only [List.map_cons, if_pos ha]
      rw [List.find?_cons_of_pos _ (by simp [hid, ha])]
    · rw [List.find?_cons_of_neg _ (by simpa using ha)] at h
      simp only [List.map_cons, if_neg ha]
      rw [List.find?_cons_of_neg _ (by simpa using ha)]
      exact ih h

/-- Core behaviour of `update_status` on the success path: the enum parse
succeeds and the project record is updated in place with a refreshed
`updated_at`. Shared by the theorems for C6 and C7. -/
theorem update_status_valid_core (db : DB) (pid : Nat) (s : String)
    (st : ProjectStatus) (proj : Project)
    (hp : get_project db pid = some proj)
    (hs : pyUpper s = st.name) :
    update_status db (some pid) s =
      Except.ok
        ({ db with projects := db.projects.map (fun p =>
            if p.id = pid then { p with status := st, updated_at := db.clock }
            else p) },
         "Project status updated to " ++ s) ∧
    get_project
      { db with projects := db.projects.map (fun p =>
          if p.id = pid then { p with status := st, updated_at := db.clock }
          else p) } pid =
      some { proj with status := st, updated_at := db.clock } := by
  have hl : ProjectStatus.lookup (pyUpper s) = some st := by
    rw [hs]; exact ProjectStatus.lookup_name st
  constructor
  · simp [update_status, hl, update_project_status, hp]
  · exact find_map_ite pid
      (fun p => { p with status := st, updated_at := db.clock })
      (fun p => rfl) db.projects proj hp

/-- If no member of the closed status enum has name `u`, the Python
subscript lookup raises `KeyError` (returns `none`). -/
theorem ProjectStatus.lookup_eq_none (u : String)
    (h : ∀ st : ProjectStatus, st.name ≠ u) :
    ProjectStatus.lookup u = none := by
  have h1 := h .BRAINSTORMING
  have h2 := h .VISION_REVIEW
  simp only [ProjectStatus.name] at h1 h2
  unfold ProjectStatus.lookup
  rw [if_neg (fun he => h1 he.symm), if_neg (fun he => h2 he.symm)]

/-- Characterization of a successful ledger append: the new state appends
exactly one message stamped with the old clock and advances the clock. -/
theorem save_conversation_message_ok (db : DB) (pid : Nat)
    (role : MessageRole) (content : String) (db2 : DB)
    (h : save_conversation_message db pid role content = Except.ok db2) :
    db2 = { db with
      messages := db.messages ++ [⟨pid, role, content, db.clock⟩],
      clock := db.clock + 1 } := by
  unfold save_conversation_message at h
  cases hg : get_project db pid with
  | none => rw [hg] at h; cases h
  | some p => rw [hg] at h; injection h with h; exact h.symm

/-- Inversion of `Except.map` landing in `ok`. -/
theorem except_map_ok {α β γ : Type} (f : α → β) (x : Except γ α) (b : β)
    (h : x.map f = Except.ok b) : ∃ a, x = Except.ok a ∧ f a = b := by
  cases x with
  | error e => simp [Except.map] at h
  | ok a => exact ⟨a, rfl, by simpa [Except.map] using h⟩

/-- `get_project_context` never mutates the state. -/
theorem get_project_context_ok_state (db : DB) (pid : Option Nat) (db2 : DB)
    (d : List (String × PyValue))
    (h : get_project_context db pid = Except.ok (db2, d)) : db2 = db := by
  cases pid with
  | none => simp [get_project_context] at h; exact h.1.symm
  | some p =>
    cases hg : get_project db p with
    | none => simp [get_project_context, hg] at h; exact h.1.symm
    | some proj => simp [get_project_context, hg] at h; exact h.1.symm

/-- `get_conversation` never mutates the state. -/
theorem get_conversation_ok_state (db : DB) (pid : Option Nat) (limit : Int)
    (db2 : DB) (l : List (List (String × PyValue)))
    (h : get_conversation db pid limit = Except.ok (db2, l)) : db2 = db := by
  cases pid with
  | none => simp [get_conversation] at h; exact h.1.symm
  | some p =>
    cases hg : get_conversation_history db p limit with
    | error e => simp [get_conversation, hg] at h
    | ok msgs => simp [get_conversation, hg] at h; exact h.1.symm

/-- A successful `update_status` leaves the ledger and the clock
untouched (it only rewrites project records). -/
theorem update_status_ok_state (db : DB) (pid : Option Nat) (s : String)
    (db2 : DB) (r : String)
    (h : update_status db pid s = Except.ok (db2, r)) :
    db2.messages = db.messages ∧ db2.clock = db.clock := by
  cases pid with
  | none => simp [update_status] at h; rw [← h.1]; exact ⟨rfl, rfl⟩
  | some p =>
    cases hl : ProjectStatus.lookup (pyUpper s) with
    | none => simp [update_status, hl] at h; rw [← h.1]; exact ⟨rfl, rfl⟩
    | some st =>
      cases hg : get_project db p with
      | none => simp [update_status, hl, update_project_status, hg] at h
      | some proj =>
        simp [update_status, hl, update_project_status, hg] at h
        rw [← h.1]
        exact ⟨rfl, rfl⟩

/-- A successful `save_vision_document` leaves the ledger and the clock
untouched. -/
theorem save_vision_document_ok_state (db : DB) (pid : Option Nat)
    (doc : VisionDoc) (db2 : DB) (r : String)
    (h : save_vision_document db pid doc = Except.ok (db2, r)) :
    db2.messages = db.messages ∧ db2.clock = db.clock := by
  cases pid with
  | none => simp [save_vision_document] at h; rw [← h.1]; exact ⟨rfl, rfl⟩
  | some p =>
    cases hg : get_project db p with
    | none => simp [save_vision_document, update_project_vision, hg] at h
    | some proj =>
      simp [save_vision_document, update_project_vision, hg] at h
      rw [← h.1]
      exact ⟨rfl, rfl⟩

/-- A successful `save_message` either leaves the state unchanged (no
binding) or appends exactly one message and advances the clock. -/
theorem save_message_ok_state (db : DB) (pid : Option Nat)
    (role content : String) (db2 : DB) (s : String)
    (h : save_message db pid role content = Except.ok (db2, s)) :
    db2 = db ∨
      ∃ p re, db2 = { db with
        messages := db.messages ++ [⟨p, re, content, db.clock⟩],
        clock := db.clock + 1 } := by
  cases pid with
  | none =>
    left
    simp [save_message] at h
    exact h.1.symm
  | some p =>
    cases hl : MessageRole.lookup (pyUpper role) with
    | none => simp [save_message, hl] at h
    | some re =>
      cases hs : save_conversation_message db p re content with
      | error e => simp [save_message, hl, hs] at h
      | ok db3 =>
        right
        refine ⟨p, re, ?_⟩
        have h3 := save_conversation_message_ok db p re content db3 hs
        have h2 : db3 = db2 := by simp [save_message, hl, hs] at h; exact h.1
        rw [← h2, h3]

/-- A successful tool dispatch only ever appends to the ledger. -/
theorem dispatch_tool_messages_mono (db : DB) (pid : Option Nat)
    (c : ToolCall) (db2 : DB) (r : ToolResult)
    (h : dispatch_tool db pid c = Except.ok (db2, r)) :
    db.messages <+: db2.messages := by
  cases c with
  | saveMessage role content =>
    simp only [dispatch_tool] at h
    obtain ⟨⟨db3, s⟩, hx, hf⟩ := except_map_ok _ _ _ h
    have hdb : db3 = db2 := congrArg Prod.fst hf
    rcases save_message_ok_state db pid role content db3 s hx with h1 | ⟨p, re, h1⟩
    · rw [← hdb, h1]
    · rw [← hdb, h1]
      exact ⟨_, rfl⟩
  | getProjectContext =>
    simp only [dispatch_tool] at h
    obtain ⟨⟨db3, d⟩, hx, hf⟩ := except_map_ok _ _ _ h
    have hdb : db3 = db2 := congrArg Prod.fst hf
    rw [← hdb, get_project_context_ok_state db pid db3 d hx]
  | getConversation limit =>
    simp only [dispatch_tool] at h
    obtain ⟨⟨db3, l⟩, hx, hf⟩ := except_map_ok _ _ _ h
    have hdb : db3 = db2 := congrArg Prod.fst hf
    rw [← hdb, get_conversation_ok_state db pid limit db3 l hx]
  | updateStatus s =>
    simp only [dispatch_tool] at h
    obtain ⟨⟨db3, rs⟩, hx, hf⟩ := except_map_ok _ _ _ h
    have hdb : db3 = db2 := congrArg Prod.fst hf
    rw [← hdb, (update_status_ok_state db pid s db3 rs hx).1]
  | saveVisionDocument doc =>
    simp only [dispatch_tool] at h
    obtain ⟨⟨db3, rs⟩, hx, hf⟩ := except_map_ok _ _ _ h
    have hdb : db3 = db2 := congrArg Prod.fst hf
    rw [← hdb, (save_vision_document_ok_state db pid doc db3 rs hx).1]

/-- Executing a sequence of tool calls only ever appends to the ledger,
also when a call raises midway. -/
theorem run_calls_messages_mono (pid : Option Nat) :
    ∀ (calls : List ToolCall) (db : DB),
      db.messages <+: (run_calls db pid calls).1.messages
  | [], _ => List.prefix_refl _
  | c :: cs, db => by
    unfold run_calls
    cases hd : dispatch_tool db pid c with
    | error e => exact List.prefix_refl _
    | ok p =>
      rcases p with ⟨db2, r⟩
      exact (dispatch_tool_messages_mono db pid c db2 r hd).trans
        (run_calls_messages_mono pid cs db2)

/-- The state component of an agent run is the state its tool calls
reached, whatever the outcome. -/
theorem run_agent_fst (db : DB) (pid : Option Nat) (script : CollabScript) :
    (run_agent db pid script).1 = (run_calls db pid script.calls).1 := by
  unfold run_agent
  cases hrc : run_calls db pid script.calls with
  | mk db2 oe =>
    cases oe with
    | none => cases script.outcome <;> rfl
    | some e => rfl

/-- A successful run of tool calls none of which is a `saveMessage`
leaves the ledger and the clock untouched. -/
theorem run_calls_no_save_preserves (pid : Option Nat) :
    ∀ (calls : List ToolCall) (db : DB),
      calls.all (fun c => ! c.isSaveMessage) = true →
      (run_calls db pid calls).2 = none →
      (run_calls db pid calls).1.messages = db.messages ∧
      (run_calls db pid calls).1.clock = db.clock
  | [], _, _, _ => ⟨rfl, rfl⟩
  | c :: cs, db, hall, hok => by
    rw [List.all_cons, Bool.and_eq_true] at hall
    obtain ⟨hc1, hcs⟩ := hall
    unfold run_calls at hok ⊢
    cases hd : dispatch_tool db pid c with
    | error e =>
      rw [hd] at hok
      cases hok
    | ok p =>
      rcases p with ⟨db2, r⟩
      rw [hd] at hok
      replace hok : (run_calls db2 pid cs).2 = none := hok
      have hpres : db2.messages = db.messages ∧ db2.clock = db.clock := by
        cases c with
        | saveMessage role content => simp [ToolCall.isSaveMessage] at hc1
        | getProjectContext =>
          simp only [dispatch_tool] at hd
          obtain ⟨⟨db3, d⟩, hx, hf⟩ := except_map_ok _ _ _ hd
          have hdb : db3 = db2 := congrArg Prod.fst hf
          rw [← hdb, get_project_context_ok_state db pid db3 d hx]
          exact ⟨rfl, rfl⟩
        | getConversation limit =>
          simp only [dispatch_tool] at hd
          obtain ⟨⟨db3, l⟩, hx, hf⟩ := except_map_ok _ _ _ hd
          have hdb : db3 = db2 := congrArg Prod.fst hf
          rw [← hdb, get_conversation_ok_state db pid limit db3 l hx]
          exact ⟨rfl, rfl⟩
        | updateStatus s =>
          simp only [dispatch_tool] at hd
          obtain ⟨⟨db3, rs⟩, hx, hf⟩ := except_map_ok _ _ _ hd
          have hdb : db3 = db2 := congrArg Prod.fst hf
          rw [← hdb]
          exact update_status_ok_state db pid s db3 rs hx
        | saveVisionDocument doc =>
          simp only [dispatch_tool] at hd
          obtain ⟨⟨db3, rs⟩, hx, hf⟩ := except_map_ok _ _ _ hd
          have hdb : db3 = db2 := congrArg Prod.fst hf
          rw [← hdb]
          exact save_vision_document_ok_state db pid doc db3 rs hx
      obtain ⟨ih1, ih2⟩ := run_calls_no_save_preserves pid cs db2 hcs hok
      exact ⟨ih1.trans hpres.1, ih2.trans hpres.2⟩

/-! ## Claim theorems -/

/-- C5: every tool of the registry, invoked with no active project bound to
the turn, returns a non-fatal error value (an `Except.ok` carrying an error
string or error dict, never an `Except.error`) and leaves the storage state
untouched. -/
theorem tools_no_binding_nonfatal (db : DB) (role content s : String)
    (limit : Int) (doc : VisionDoc) :
    save_message db none role content =
      Except.ok (db, "Error: No active project") ∧
    get_project_context db none =
      Except.ok (db, [("error", PyValue.str "No active project")]) ∧
    get_conversation db none limit =
      Except.ok (db, [[("error", PyValue.str "No active project")]]) ∧
    update_status db none s =
      Except.ok (db, "Error: No active project") ∧
    save_vision_document db none doc =
      Except.ok (db, "Error: No active project") :=
  ⟨rfl, rfl, rfl, rfl, rfl⟩

/-- C9: with a project bound whose id matches no existing project,
`get_project_context` returns an error-bearing dict as a normal value
rather than raising `NotFound`; the state is unchanged. -/
theorem get_project_context_missing_project (db : DB) (pid : Nat)
    (h : get_project db pid = none) :
    get_project_context db (some pid) =
      Except.ok (db, [("error", PyValue.str "Project not found")]) := by
  simp [get_project_context, h]

/-- Witness for C9 at a concrete input: project 2 does not exist in
`exampleDB`. -/
theorem get_project_context_missing_project_witness :
    get_project exampleDB 2 = none ∧
    get_project_context exampleDB (some 2) =
      Except.ok (exampleDB, [("error", PyValue.str "Project not found")]) :=
  ⟨by decide, get_project_context_missing_project exampleDB 2 (by decide)⟩

/-- C2: `update_status` under an active binding, given a candidate that
matches no member of the closed status enum case-insensitively, returns the
descriptive rejection string as a normal value, with the state (hence the
project's status) unchanged and no error raised. -/
theorem update_status_invalid_rejects (db : DB) (pid : Nat) (s : String)
    (h : ∀ st : ProjectStatus, st.name ≠ pyUpper s) :
    update_status db (some pid) s =
      Except.ok (db, "Error: Invalid status \'" ++ s ++ "\'") := by
  simp [update_status, ProjectStatus.lookup_eq_none _ h]

/-- Witness for C2 at a concrete input: candidate "banana". -/
theorem update_status_invalid_rejects_witness :
    (∀ st : ProjectStatus, st.name ≠ pyUpper "banana") ∧
    update_status exampleDB (some 1) "banana" =
      Except.ok (exampleDB, "Error: Invalid status \'banana\'") :=
  ⟨by intro st; cases st <;> decide,
   update_status_invalid_rejects exampleDB 1 "banana"
     (by intro st; cases st <;> decide)⟩

/-- C1 (code bug): `save_message` under an active binding with the
out-of-enum role "moderator" raises an uncaught `KeyError` instead of
returning a descriptive string: the exception escapes the tool, aborts the
agent run, and the turn ends fatally with only the USER message persisted.
The enum lookup on line 57 is not wrapped in try/except, unlike the
parallel lookup in `update_status`. -/
theorem save_message_invalid_role_raises :
    save_message exampleDB (some 1) "moderator" "hello" =
      Except.error (Err.KeyError "MODERATOR") ∧
    run_orchestrator exampleDB 1 "hi"
        { calls := [ToolCall.saveMessage "moderator" "hello"],
          outcome := CollabOutcome.reply "done" } =
      ({ exampleDB with
          messages := [⟨1, MessageRole.USER, "hi", 10⟩], clock := 11 },
        Except.error (Err.KeyError "MODERATOR")) :=
  ⟨rfl, rfl⟩

/-- C6: `update_status` on an existing bound project, given any
case-insensitive spelling of a valid status member (its Python uppercasing
equals the member name), updates the stored project's status to that
member, refreshes `updated_at` to the current clock, returns the
confirmation string, and touches nothing else (ledger and clock
unchanged). -/
theorem update_status_valid_updates (db : DB) (pid : Nat) (s : String)
    (st : ProjectStatus) (proj : Project)
    (hp : get_project db pid = some proj)
    (hs : pyUpper s = st.name) :
    ∃ db2, update_status db (some pid) s =
        Except.ok (db2, "Project status updated to " ++ s) ∧
      get_project db2 pid =
        some { proj with status := st, updated_at := db.clock } ∧
      db2.messages = db.messages ∧ db2.clock = db.clock := by
  obtain ⟨h1, h2⟩ := update_status_valid_core db pid s st proj hp hs
  exact ⟨_, h1, h2, rfl, rfl⟩

/-- Witness for C6 at a concrete input: "vision_review" on `exampleDB`. -/
theorem update_status_valid_updates_witness :
    get_project exampleDB 1 = some exampleProject ∧
    pyUpper "vision_review" = ProjectStatus.VISION_REVIEW.name ∧
    ∃ db2, update_status exampleDB (some 1) "vision_review" =
        Except.ok (db2, "Project status updated to " ++ "vision_review") ∧
      get_project db2 1 =
        some { exampleProject with
                status := ProjectStatus.VISION_REVIEW, updated_at := 10 } ∧
      db2.messages = exampleDB.messages ∧ db2.clock = exampleDB.clock :=
  ⟨rfl, rfl,
   update_status_valid_updates exampleDB 1 "vision_review"
     ProjectStatus.VISION_REVIEW exampleProject rfl rfl⟩

/-- C7: acceptance of a valid status update does not depend on the
project's current phase: for every pair of phases (current, target) and
every existing bound project currently in `current`, a spelling of
`target` succeeds and stores `target`. -/
theorem update_status_any_phase_pair (db : DB) (pid : Nat) (s : String)
    (current target : ProjectStatus) (proj : Project)
    (hp : get_project db pid = some proj)
    (hcur : proj.status = current)
    (hs : pyUpper s = target.name) :
    ∃ db2, update_status db (some pid) s =
        Except.ok (db2, "Project status updated to " ++ s) ∧
      get_project db2 pid =
        some { proj with status := target, updated_at := db.clock } := by
  obtain ⟨h1, h2⟩ := update_status_valid_core db pid s target proj hp hs
  exact ⟨_, h1, h2⟩

/-- Witness for C7 at a concrete input: the identity transition
BRAINSTORMING → BRAINSTORMING (not otherwise exercised by C6's witness)
on `exampleDB`. -/
theorem update_status_any_phase_pair_witness :
    get_project exampleDB 1 = some exampleProject ∧
    exampleProject.status = ProjectStatus.BRAINSTORMING ∧
    pyUpper "Brainstorming" = ProjectStatus.BRAINSTORMING.name ∧
    ∃ db2, update_status exampleDB (some 1) "Brainstorming" =
        Except.ok (db2, "Project status updated to " ++ "Brainstorming") ∧
      get_project db2 1 =
        some { exampleProject with
                status := ProjectStatus.BRAINSTORMING, updated_at := 10 } :=
  ⟨rfl, rfl, rfl,
   update_status_any_phase_pair exampleDB 1 "Brainstorming"
     ProjectStatus.BRAINSTORMING ProjectStatus.BRAINSTORMING exampleProject
     rfl rfl rfl⟩

/-- C8 counterexample: on a concrete existing project the snapshot
returned by `get_project_context` carries the keys `name` and
`description`, which are not Project fields listed in §3 of the spec —
so the snapshot does not contain exactly the §3 fields. -/
theorem get_project_context_extra_fields :
    (get_project_context exampleDB (some 1)).map (fun r => r.2.map Prod.fst) =
      Except.ok snapshotKeys ∧
    "name" ∈ snapshotKeys ∧ "description" ∈ snapshotKeys ∧
    "name" ∉ specSection3FieldKeys ∧ "description" ∉ specSection3FieldKeys :=
  ⟨rfl, by decide, by decide, by decide, by decide⟩

/-- C8 amended: for every existing bound project, `get_project_context`
returns, without mutating state, a snapshot whose keys are the §3 Project
fields PLUS the project's name and description, with a boolean presence
flag (`has_vision_document`) substituted for the vision document itself —
the document's contents appear nowhere in the snapshot. -/
theorem get_project_context_snapshot (db : DB) (pid : Nat) (proj : Project)
    (h : get_project db pid = some proj) :
    get_project_context db (some pid) = Except.ok (db,
      [("id", PyValue.str (toString proj.id)),
       ("name", PyValue.str proj.name),
       ("description", PyValue.ofOptStr proj.description),
       ("status", PyValue.str proj.status.value),
       ("github_repo_url", PyValue.ofOptStr proj.github_repo_url),
       ("telegram_chat_id", PyValue.ofOptStr proj.telegram_chat_id),
       ("has_vision_document", PyValue.bool proj.vision_document.isSome),
       ("created_at", PyValue.str (toString proj.created_at)),
       ("updated_at", PyValue.str (toString proj.updated_at))]) ∧
    specSection3FieldKeys ⊆ snapshotKeys := by
  constructor
  · simp [get_project_context, h]
  · decide

/-- Witness for the amended C8 at a concrete input: project 1 of
`exampleDB`. -/
theorem get_project_context_snapshot_witness :
    get_project exampleDB 1 = some exampleProject ∧
    (get_project_context exampleDB (some 1) = Except.ok (exampleDB,
      [("id", PyValue.str (toString exampleProject.id)),
       ("name", PyValue.str exampleProject.name),
       ("description", PyValue.ofOptStr exampleProject.description),
       ("status", PyValue.str exampleProject.status.value),
       ("github_repo_url", PyValue.ofOptStr exampleProject.github_repo_url),
       ("telegram_chat_id", PyValue.ofOptStr exampleProject.telegram_chat_id),
       ("has_vision_document",
         PyValue.bool exampleProject.vision_document.isSome),
       ("created_at", PyValue.str (toString exampleProject.created_at)),
       ("updated_at", PyValue.str (toString exampleProject.updated_at))]) ∧
     specSection3FieldKeys ⊆ snapshotKeys) :=
  ⟨rfl, get_project_context_snapshot exampleDB 1 exampleProject rfl⟩

/-- C3 counterexample: a turn in which the collaborator issues one
successful `saveMessage` tool call succeeds yet adds three messages to
the ledger, not exactly two. -/
theorem run_orchestrator_three_messages :
    (run_orchestrator exampleDB 1 "hi"
        { calls := [ToolCall.saveMessage "user" "extra"],
          outcome := CollabOutcome.reply "done" }).2 = Except.ok "done" ∧
    (run_orchestrator exampleDB 1 "hi"
        { calls := [ToolCall.saveMessage "user" "extra"],
          outcome := CollabOutcome.reply "done" }).1.messages.length =
      exampleDB.messages.length + 3 :=
  ⟨rfl, rfl⟩

/-- C3 amended: a successful turn appends the user text as a USER message
before the collaborator runs and the collaborator's reply as an ASSISTANT
message after it, and returns that reply; when the collaborator issues no
`saveMessage` tool calls, the turn adds exactly those two messages (USER
then ASSISTANT, in that order) to the ledger. -/
theorem run_orchestrator_two_messages (db : DB) (pid : Nat)
    (text reply : String) (script : CollabScript)
    (hc : script.calls.all (fun c => ! c.isSaveMessage) = true)
    (hok : (run_orchestrator db pid text script).2 = Except.ok reply) :
    (run_orchestrator db pid text script).1.messages =
      db.messages ++
        [⟨pid, MessageRole.USER, text, db.clock⟩,
         ⟨pid, MessageRole.ASSISTANT, reply, db.clock + 1⟩] := by
  cases h1 : save_conversation_message db pid MessageRole.USER text with
  | error e =>
    have Hrun : (run_orchestrator db pid text script).2 = Except.error e := by
      simp only [run_orchestrator, h1]
    rw [Hrun] at hok
    cases hok
  | ok db1 =>
    have hdb1 := save_conversation_message_ok db pid .USER text db1 h1
    have hm1 : db1.messages =
        db.messages ++ [⟨pid, MessageRole.USER, text, db.clock⟩] := by
      rw [hdb1]
    have hk1 : db1.clock = db.clock + 1 := by rw [hdb1]
    cases hra : run_agent db1 (some pid) script with
    | mk db2 res =>
      cases res with
      | error e =>
        have Hrun : (run_orchestrator db pid text script).2 = Except.error e := by
          simp only [run_orchestrator, h1, hra]
        rw [Hrun] at hok
        cases hok
      | ok t =>
        have hcalls : run_calls db1 (some pid) script.calls = (db2, none) := by
          cases hrc : run_calls db1 (some pid) script.calls with
          | mk db2x oe =>
            cases oe with
            | some e2 =>
              have hx : run_agent db1 (some pid) script =
                  (db2x, Except.error e2) := by
                simp only [run_agent, hrc]
              rw [hx] at hra
              injection hra with hA hB
              cases hB
            | none =>
              cases ho : script.outcome with
              | reply tx =>
                have hx : run_agent db1 (some pid) script =
                    (db2x, Except.ok tx) := by
                  simp only [run_agent, hrc, ho]
                rw [hx] at hra
                injection hra with hA hB
                rw [hA]
              | fatal =>
                have hx : run_agent db1 (some pid) script =
                    (db2x, Except.error Err.Upstream) := by
                  simp only [run_agent, hrc, ho]
                rw [hx] at hra
                injection hra with hA hB
                cases hB
        have hpres := run_calls_no_save_preserves (some pid) script.calls db1
          hc (by rw [hcalls])
        rw [hcalls] at hpres
        replace hpres : db2.messages = db1.messages ∧ db2.clock = db1.clock :=
          hpres
        cases h4 : save_conversation_message db2 pid MessageRole.ASSISTANT t with
        | error e =>
          have Hrun : (run_orchestrator db pid text script).2 = Except.error e := by
            simp only [run_orchestrator, h1, hra, h4]
          rw [Hrun] at hok
          cases hok
        | ok db3 =>
          have Hrun : run_orchestrator db pid text script = (db3, Except.ok t) := by
            simp only [run_orchestrator, h1, hra, h4]
          rw [Hrun] at hok ⊢
          have ht : t = reply := by simpa using hok
          have hdb3 := save_conversation_message_ok db2 pid .ASSISTANT t db3 h4
          show db3.messages = _
          rw [hdb3]
          show db2.messages ++ [⟨pid, MessageRole.ASSISTANT, t, db2.clock⟩] = _
          rw [hpres.1, hpres.2, hm1, hk1, ht]
          simp

/-- Witness for the amended C3 at a concrete input: the §8 scenario — the
collaborator requests `updateStatus("vision_review")` and replies. -/
theorem run_orchestrator_two_messages_witness :
    (([ToolCall.updateStatus "vision_review"].all
        (fun c => ! c.isSaveMessage)) = true) ∧
    (run_orchestrator exampleDB 1 "start"
        { calls := [ToolCall.updateStatus "vision_review"],
          outcome := CollabOutcome.reply "Moving to vision review" }).2 =
      Except.ok "Moving to vision review" ∧
    (run_orchestrator exampleDB 1 "start"
        { calls := [ToolCall.updateStatus "vision_review"],
          outcome := CollabOutcome.reply "Moving to vision review" }).1.messages =
      exampleDB.messages ++
        [⟨1, MessageRole.USER, "start", 10⟩,
         ⟨1, MessageRole.ASSISTANT, "Moving to vision review", 11⟩] :=
  ⟨rfl, rfl,
   run_orchestrator_two_messages exampleDB 1 "start" "Moving to vision review"
     { calls := [ToolCall.updateStatus "vision_review"],
       outcome := CollabOutcome.reply "Moving to vision review" } rfl rfl⟩

/-- C4: when the collaborator invocation fails fatally after the user
message was appended, the turn ends in exactly the state the agent run
reached — `run_orchestrator` appends nothing after the failure (in
particular no step-4 ASSISTANT append happens) — and the already-appended
USER message is still in the ledger (no rollback). -/
theorem run_orchestrator_fatal_keeps_user (db db1 : DB) (pid : Nat)
    (text : String) (script : CollabScript) (e : Err)
    (h1 : save_conversation_message db pid .USER text = Except.ok db1)
    (h2 : (run_agent db1 (some pid) script).2 = Except.error e) :
    run_orchestrator db pid text script =
      ((run_agent db1 (some pid) script).1, Except.error e) ∧
    Message.mk pid MessageRole.USER text db.clock ∈
      (run_agent db1 (some pid) script).1.messages := by
  have hdb1 := save_conversation_message_ok db pid .USER text db1 h1
  cases hra : run_agent db1 (some pid) script with
  | mk db2 res =>
    rw [hra] at h2
    replace h2 : res = Except.error e := h2
    subst h2
    constructor
    · show run_orchestrator db pid text script = (db2, Except.error e)
      simp only [run_orchestrator, h1, hra]
    · have hm1 : Message.mk pid MessageRole.USER text db.clock ∈ db1.messages := by
        rw [hdb1]
        simp
      have hpre : db1.messages <+:
          (run_calls db1 (some pid) script.calls).1.messages :=
        run_calls_messages_mono (some pid) script.calls db1
      have hfst : (run_calls db1 (some pid) script.calls).1 = db2 := by
        rw [← run_agent_fst, hra]
      rw [hfst] at hpre
      exact hpre.subset hm1

/-- Witness for C4 at a concrete input: the collaborator fails fatally
with no tool calls; the USER message "hi" persists and nothing else is
appended. -/
theorem run_orchestrator_fatal_keeps_user_witness :
    save_conversation_message exampleDB 1 .USER "hi" = Except.ok exampleDB1 ∧
    (run_agent exampleDB1 (some 1)
        { calls := [], outcome := CollabOutcome.fatal }).2 =
      Except.error Err.Upstream ∧
    (run_orchestrator exampleDB 1 "hi"
        { calls := [], outcome := CollabOutcome.fatal } =
      ((run_agent exampleDB1 (some 1)
          { calls := [], outcome := CollabOutcome.fatal }).1,
       Except.error Err.Upstream) ∧
     Message.mk 1 MessageRole.USER "hi" 10 ∈
       (run_agent exampleDB1 (some 1)
          { calls := [], outcome := CollabOutcome.fatal }).1.messages) :=
  ⟨rfl, rfl,
   run_orchestrator_fatal_keeps_user exampleDB exampleDB1 1 "hi"
     { calls := [], outcome := CollabOutcome.fatal } Err.Upstream rfl rfl⟩

/-- C10: the reply text a successful turn returns is exactly the content
of the ASSISTANT message persisted last to the ledger during that turn. -/
theorem run_orchestrator_reply_eq_persisted (db : DB) (pid : Nat)
    (text : String) (script : CollabScript) (r : String)
    (h : (run_orchestrator db pid text script).2 = Except.ok r) :
    ∃ t, (run_orchestrator db pid text script).1.messages.getLast? =
      some ⟨pid, MessageRole.ASSISTANT, r, t⟩ := by
  cases h1 : save_conversation_message db pid MessageRole.USER text with
  | error e =>
    have Hrun : (run_orchestrator db pid text script).2 = Except.error e := by
      simp only [run_orchestrator, h1]
    rw [Hrun] at h
    cases h
  | ok db1 =>
    cases hra : run_agent db1 (some pid) script with
    | mk db2 res =>
      cases res with
      | error e =>
        have Hrun : (run_orchestrator db pid text script).2 = Except.error e := by
          simp only [run_orchestrator, h1, hra]
        rw [Hrun] at h
        cases h
      | ok t =>
        cases h4 : save_conversation_message db2 pid MessageRole.ASSISTANT t with
        | error e =>
          have Hrun : (run_orchestrator db pid text script).2 = Except.error e := by
            simp only [run_orchestrator, h1, hra, h4]
          rw [Hrun] at h
          cases h
        | ok db3 =>
          have Hrun : run_orchestrator db pid text script = (db3, Except.ok t) := by
            simp only [run_orchestrator, h1, hra, h4]
          rw [Hrun] at h ⊢
          have ht : t = r := by simpa using h
          have hdb3 := save_conversation_message_ok db2 pid .ASSISTANT t db3 h4
          refine ⟨db2.clock, ?_⟩
          show db3.messages.getLast? = _
          rw [hdb3, ht]
          simp

/-- Witness for C10 at a concrete input: a turn with no tool calls and
reply "done". -/
theorem run_orchestrator_reply_eq_persisted_witness :
    (run_orchestrator exampleDB 1 "hi"
        { calls := [], outcome := CollabOutcome.reply "done" }).2 =
      Except.ok "done" ∧
    ∃ t, (run_orchestrator exampleDB 1 "hi"
        { calls := [], outcome := CollabOutcome.reply "done" }).1.messages.getLast? =
      some ⟨1, MessageRole.ASSISTANT, "done", t⟩ :=
  ⟨rfl,
   run_orchestrator_reply_eq_persisted exampleDB 1 "hi"
     { calls := [], outcome := CollabOutcome.reply "done" } "done" rfl⟩
